import Mathlib

/-!
# Verification of the PAPI request-construction and signing pipeline

Shallow embedding of `polaris.py` (a Python 2 client for the Polaris REST
API).  Pure fragments of the Python source are translated into executable
Lean definitions; the Python standard-library collaborators that the claims
depend on (`base64`'s `encode('base64')` codec, `hashlib.sha1`, `hmac.new`,
`email.utils.formatdate`) are implemented concretely so that every property
can be evaluated on concrete inputs.  Machine words are `Nat` with explicit
reduction modulo `2 ^ 32`; Python byte strings are `List Nat` of byte values.
-/

set_option maxRecDepth 100000

namespace Polaris

/-! ## Python string primitives

Python 2 `str` is a byte string; the client only ever handles ASCII, so a
byte string is modelled as the list of character codes of a Lean `String`. -/

/-- Byte values of a Python 2 `str` (ASCII). -/
def strBytes (s : String) : List Nat := s.data.map Char.toNat

/-- Python slicing `s[:-1]`: drop the final character. -/
def pySliceDropLast (s : String) : String := String.mk s.data.dropLast

/-- Python slicing `s[1:]`: drop the first character. -/
def pySliceFromOne (s : String) : String := String.mk (s.data.drop 1)

/-! ## Base64

`digest().encode('base64')` in Python 2 routes through
`base64.encodestring`: the input is split into 57-byte chunks, each chunk is
encoded in standard base64 (with `=` padding) and terminated by a newline. -/

/-- The standard base64 alphabet. -/
def base64Alphabet : List Char :=
  "ABCDEFGHIJKLMNOPQRSTUVWXYZabcdefghijklmnopqrstuvwxyz0123456789+/".data

/-- The base64 character for a 6-bit index. -/
def b64Char (n : Nat) : Char := base64Alphabet.getD n 'A'

/-- Standard base64 of a byte list: groups of three bytes become four
alphabet characters, with `=` padding for a short final group. -/
def base64Chunk : List Nat → List Char
  | [] => []
  | [b1] => [b64Char (b1 / 4), b64Char (b1 % 4 * 16), '=', '=']
  | [b1, b2] => [b64Char (b1 / 4), b64Char (b1 % 4 * 16 + b2 / 16),
      b64Char (b2 % 16 * 4), '=']
  | b1 :: b2 :: b3 :: rest =>
      b64Char (b1 / 4) :: b64Char (b1 % 4 * 16 + b2 / 16) ::
      b64Char (b2 % 16 * 4 + b3 / 64) :: b64Char (b3 % 64) :: base64Chunk rest

/-- Standard base64 encoding (no line breaks), as a string. -/
def base64Encode (bs : List Nat) : String := String.mk (base64Chunk bs)

/-- `base64.encodestring` walks the input gathering 57-byte chunks in `acc`;
each full (or final partial) chunk is base64-encoded and followed by `\n`. -/
def pyBase64Fold (acc : List Nat) : List Nat → List Char
  | [] => if acc = [] then [] else base64Chunk acc ++ ['\n']
  | b :: rest =>
      if acc.length = 56 then
        base64Chunk (acc ++ [b]) ++ '\n' :: pyBase64Fold [] rest
      else pyBase64Fold (acc ++ [b]) rest

/-- `base64.encodestring`: encode 57-byte chunks, each followed by `\n`. -/
def pyBase64Lines (bs : List Nat) : List Char := pyBase64Fold [] bs

/-- Python 2 `s.encode('base64')`. -/
def pyBase64Encode (bs : List Nat) : String := String.mk (pyBase64Lines bs)

/-! ## SHA-1 (`hashlib.sha1`) and HMAC (`hmac.new`)

FIPS 180-1 SHA-1 over byte lists, and FIPS 198 HMAC instantiated with it,
exactly as `hmac.new(key, message, sha1).digest()` computes. -/

/-- Reduce to a 32-bit word. -/
def w32 (x : Nat) : Nat := x % 4294967296

/-- Left rotation of a 32-bit word (`x` is assumed `< 2 ^ 32`). -/
def rotl (n x : Nat) : Nat := x * 2 ^ n % 4294967296 + x / 2 ^ (32 - n)

/-- Big-endian byte rendering of `val` into `numBytes` bytes. -/
def beBytes (numBytes val : Nat) : List Nat :=
  (List.range numBytes).map (fun i => val / 2 ^ (8 * (numBytes - 1 - i)) % 256)

/-- Big-endian 32-bit words from a byte list (groups of four). -/
def bytesToWords : List Nat → List Nat
  | b1 :: b2 :: b3 :: b4 :: rest =>
      (((b1 * 256 + b2) * 256 + b3) * 256 + b4) :: bytesToWords rest
  | _ => []

/-- SHA-1 message padding: `0x80`, zeros to 56 mod 64, 8-byte bit length. -/
def sha1Pad (msg : List Nat) : List Nat :=
  msg ++ 128 :: List.replicate ((56 + 64 - (msg.length + 1) % 64) % 64) 0
      ++ beBytes 8 (msg.length * 8)

/-- SHA-1 round constants. -/
def sha1K (i : Nat) : Nat :=
  if i < 20 then 0x5A827999 else if i < 40 then 0x6ED9EBA1
  else if i < 60 then 0x8F1BBCDC else 0xCA62C1D6

/-- SHA-1 round functions (complement taken inside 32 bits). -/
def sha1F (i b c d : Nat) : Nat :=
  if i < 20 then (b &&& c) ||| ((b ^^^ 4294967295) &&& d)
  else if i < 40 then b ^^^ c ^^^ d
  else if i < 60 then (b &&& c) ||| (b &&& d) ||| (c &&& d)
  else b ^^^ c ^^^ d

/-- Expand the 16 chunk words to the 80-word message schedule. -/
def sha1Words (chunk : List Nat) : Array Nat :=
  (List.range 64).foldl
    (fun w j =>
      let i := 16 + j
      w.push (rotl 1 ((w.getD (i - 3) 0) ^^^ (w.getD (i - 8) 0) ^^^
        (w.getD (i - 14) 0) ^^^ (w.getD (i - 16) 0))))
    (bytesToWords chunk).toArray

/-- The SHA-1 working state. -/
abbrev Sha1State := Nat × Nat × Nat × Nat × Nat

/-- One SHA-1 compression round. -/
def sha1Round (w : Array Nat) (st : Sha1State) (i : Nat) : Sha1State :=
  let temp := w32 (rotl 5 st.1 + sha1F i st.2.1 st.2.2.1 st.2.2.2.1 +
    st.2.2.2.2 + sha1K i + w.getD i 0)
  (temp, st.1, rotl 30 st.2.1, st.2.2.1, st.2.2.2.1)

/-- Compress one 64-byte chunk into the running hash state. -/
def sha1Chunk (h : Sha1State) (chunk : List Nat) : Sha1State :=
  let w := sha1Words chunk
  let st := (List.range 80).foldl (sha1Round w) h
  (w32 (h.1 + st.1), w32 (h.2.1 + st.2.1), w32 (h.2.2.1 + st.2.2.1),
   w32 (h.2.2.2.1 + st.2.2.2.1), w32 (h.2.2.2.2 + st.2.2.2.2))

/-- Fold the compression function over consecutive 64-byte chunks, gathering
bytes in `acc`; the padded message is always a whole number of chunks. -/
def sha1Fold (h : Sha1State) (acc : List Nat) : List Nat → Sha1State
  | [] => h
  | b :: rest =>
      if acc.length = 63 then sha1Fold (sha1Chunk h (acc ++ [b])) [] rest
      else sha1Fold h (acc ++ [b]) rest

/-- SHA-1 digest (20 bytes) of a byte list. -/
def sha1 (msg : List Nat) : List Nat :=
  let h := sha1Fold
    (0x67452301, 0xEFCDAB89, 0x98BADCFE, 0x10325476, 0xC3D2E1F0)
    [] (sha1Pad msg)
  beBytes 4 h.1 ++ beBytes 4 h.2.1 ++ beBytes 4 h.2.2.1 ++
    beBytes 4 h.2.2.2.1 ++ beBytes 4 h.2.2.2.2

/-- `hmac.new(key, msg, sha1).digest()` (FIPS 198, block size 64). -/
def hmacSha1 (key msg : List Nat) : List Nat :=
  let key0 := if 64 < key.length then sha1 key else key
  let keyB := key0 ++ List.replicate (64 - key0.length) 0
  sha1 ((keyB.map (fun b => b ^^^ 0x5C)) ++
    sha1 ((keyB.map (fun b => b ^^^ 0x36)) ++ msg))

/-! ## `email.utils.formatdate(timeval, localtime=False, usegmt=True)`

Renders an epoch timestamp as an RFC 1123 / RFC 2822 HTTP date in GMT,
`"Sun, 06 Nov 1994 08:49:37 GMT"`.  The civil date is recovered from the
epoch day count with the standard era-based conversion. -/

/-- Zero-pad a numeral to at least two digits (Python `%02d`). -/
def pad2 (n : Nat) : String := if n < 10 then "0" ++ toString n else toString n

/-- Zero-pad a numeral to at least four digits (Python `%04d`). -/
def pad4 (n : Nat) : String :=
  if n < 10 then "000" ++ toString n
  else if n < 100 then "00" ++ toString n
  else if n < 1000 then "0" ++ toString n
  else toString n

/-- Civil `(year, month, day)` from days since the Unix epoch. -/
def civilFromDays (days : Nat) : Nat × Nat × Nat :=
  let z := days + 719468
  let era := z / 146097
  let doe := z % 146097
  let yoe := (doe - doe / 1460 + doe / 36524 - doe / 146096) / 365
  let y := yoe + era * 400
  let doy := doe - (365 * yoe + yoe / 4 - yoe / 100)
  let mp := (5 * doy + 2) / 153
  let d := doy - (153 * mp + 2) / 5 + 1
  let m := if mp < 10 then mp + 3 else mp - 9
  (if m ≤ 2 then y + 1 else y, m, d)

/-- Abbreviated weekday names, Monday first (as in `email.utils`). -/
def dayNames : List String := ["Mon", "Tue", "Wed", "Thu", "Fri", "Sat", "Sun"]

/-- Abbreviated month names (as in `email.utils`). -/
def monthNames : List String :=
  ["Jan", "Feb", "Mar", "Apr", "May", "Jun",
   "Jul", "Aug", "Sep", "Oct", "Nov", "Dec"]

/-- `email.utils.formatdate(t, localtime=False, usegmt=True)`. -/
def formatdate (t : Nat) : String :=
  let days := t / 86400
  let secs := t % 86400
  let ymd := civilFromDays days
  dayNames.getD ((days + 3) % 7) "Mon" ++ ", " ++ pad2 ymd.2.2 ++ " " ++
    monthNames.getD (ymd.2.1 - 1) "Jan" ++ " " ++ pad4 ymd.1 ++ " " ++
    pad2 (secs / 3600) ++ ":" ++ pad2 (secs % 3600 / 60) ++ ":" ++
    pad2 (secs % 60) ++ " GMT"

/-! ## Python values at the modelled call sites

Positional arguments are dynamically typed in the source; the catalog
passes strings, the `0` sentinel of the "all for patron" wrappers, and (at
one faulty call site) the client instance itself.  `fmt` is the rendering
`str.format` applies when such a value is substituted into a URL template. -/

/-- A Python value appearing as a positional argument. -/
inductive PyVal where
  | str (s : String)
  | int (n : Nat)
  | inst
deriving DecidableEq

/-- `str.format` rendering of a value (the `inst` case is never rendered by
any modelled call that type-checks at the Python level). -/
def PyVal.fmt : PyVal → String
  | .str s => s
  | .int n => toString n
  | .inst => ""

/-- A JSON value as built by the catalog methods for request bodies; the
body is handed to `json.dumps` (external library) only at serialization
time, which no claim concerns. -/
inductive Jval where
  | jnull
  | jstr (s : String)
  | jobj (fields : List (String × Jval))

/-! ## The PAPI client -/

/-- Client state created by `__init__`: the three credential strings (the
`requests.Session` transport handle carries no data relevant here). -/
structure PAPI where
  accessKey : String
  accessKeyID : String
  hostname : String
deriving DecidableEq

/-- Python-level semantics of `PAPI(...)`: `__init__` has three required
positional parameters and stores them with no validation; any other arity
raises `TypeError` before a client exists. -/
def callPAPIInit (args : List PyVal) : Except String PAPI :=
  match args with
  | [a1, a2, a3] => .ok ⟨a1.fmt, a2.fmt, a3.fmt⟩
  | _ => .error ("TypeError: __init__() takes exactly 4 arguments (" ++
      toString (args.length + 1) ++ " given)")

/-- `_getPAPIHash`: concatenate method, URL, date and password with no
separators, HMAC-SHA1 the result under the access key, base64-encode via
the Python 2 codec and drop the final character (`[:-1]`).  Returns the
signature together with the line the routine prints to standard output. -/
def PAPI.getPAPIHash (papi : PAPI)
    (HTTPMethod URI HTTPDate patronPassword : String) : String × String :=
  let message := HTTPMethod ++ URI ++ HTTPDate ++ patronPassword
  let hashed := hmacSha1 (strBytes papi.accessKey) (strBytes message)
  (pySliceDropLast (pyBase64Encode hashed), message)

/-- `_dictParse`: rebuild each key and value character by character mapping
`' '` to `'+'`, join as `&k=v` runs, and turn a non-empty result into a
`?`-prefixed query suffix (Python dict iteration is modelled by list
order). -/
def dictParse (params : List (String × String)) : String :=
  let parsedParams := params.foldl
    (fun acc kv =>
      let parsedParamKey := String.mk
        (kv.1.data.foldl (fun a c => a ++ [if c = ' ' then '+' else c]) [])
      let parsedParamValue := String.mk
        (kv.2.data.foldl (fun a c => a ++ [if c = ' ' then '+' else c]) [])
      acc ++ "&" ++ parsedParamKey ++ "=" ++ parsedParamValue)
    ""
  if parsedParams = "" then parsedParams else "?" ++ pySliceFromOne parsedParams

/-- The keyword arguments consumed by `_undifferentiatied` (`kwargs.get`
defaults are applied there); the trailing fields model the extra keys some
catalog methods read. -/
structure Kwargs where
  version : Option String := none
  langID : Option String := none
  appID : Option String := none
  orgID : Option String := none
  params : Option (List (String × String)) := none
  data : Option Jval := none
  accessSecret : Option String := none
  patronPassword : Option String := none
  accessToken : Option String := none
  reportingOrgID : Option String := none
  details : Option String := none
  itemRecordID : Option String := none
  freeTextNote : Option String := none

/-- The HTTP verbs used by the catalog (the spec's method enum). -/
inductive HttpMethod where
  | GET
  | POST
  | PUT
  | DELETE
deriving DecidableEq

/-- The literal verb string each catalog method passes. -/
def HttpMethod.toStr : HttpMethod → String
  | .GET => "GET"
  | .POST => "POST"
  | .PUT => "PUT"
  | .DELETE => "DELETE"

/-- The signed request descriptor assembled by `_undifferentiatied` and
handed to the transport: the prepared request plus its header dictionary.
`sigMessage` records the exact string signed, and `stdout` the lines the
routine prints (observations of the construction, kept so properties about
them can be stated).  `json.dumps` serialization and the `Content-Length`
it determines are external-library behaviour carried by `body`. -/
structure SignedRequest where
  method : HttpMethod
  protocol : String
  protection : String
  url : String
  body : Jval
  sigMessage : String
  signature : String
  authorization : String
  dateHeader : String
  contentType : String
  accept : String
  tokenHeader : Option String
  stdout : List String

/-- `_undifferentiatied`: resolve keyword defaults, build the root URI and
the full URL (with the custom query suffix), timestamp the request, sign
it, and assemble the headers.  `now` is the clock read this call performs
(`formatdate(timeval=None, ...)`); the `requests` prepared-request URL is
the assembled URI itself, since every character this client's
canonicalization emits is left unchanged by the `requests` library's
re-quoting. -/
def PAPI.undifferentiatied (papi : PAPI) (protocol : String)
    (HTTPMethod : HttpMethod) (protection : String) (suffixURI : String)
    (k : Kwargs) (now : Nat) : SignedRequest :=
  let version := k.version.getD "v1"
  let langID := k.langID.getD "1033"
  let appID := k.appID.getD "100"
  let orgID := k.orgID.getD "1"
  let paramsSuffix := dictParse (k.params.getD [])
  let data := k.data.getD (Jval.jobj [])
  let patronPassword := (k.accessSecret.getD (k.patronPassword.getD ""))
  let accessToken := k.accessToken.getD ""
  let rootURI := protocol ++ "://" ++ papi.hostname ++ "/PAPIService/REST/" ++
    protection ++ "/" ++ version ++ "/" ++ langID ++ "/" ++ appID ++ "/" ++
    orgID ++ "/"
  let URI := rootURI ++ suffixURI ++ paramsSuffix
  let HTTPDate := formatdate now
  let hash := papi.getPAPIHash HTTPMethod.toStr URI HTTPDate patronPassword
  { method := HTTPMethod
    protocol := protocol
    protection := protection
    url := URI
    body := data
    sigMessage := hash.2
    signature := hash.1
    authorization := "PWS " ++ papi.accessKeyID ++ ":" ++ hash.1
    dateHeader := HTTPDate
    contentType := "application/json"
    accept := "application/json"
    tokenHeader :=
      if accessToken ≠ "" ∧ protection = "public" then some accessToken
      else none
    stdout := [hash.2, hash.1] }

/-! ## Endpoint catalog (the operations the verified properties concern) -/

/-- A `kwargs.get(key, None)` body field: JSON null when the key is absent. -/
def jopt : Option String → Jval
  | some s => .jstr s
  | none => .jnull

/-- `holdRequestCancel`: PUT `patron/{barcode}/holdrequests/{id}/cancelled`
over the public scheme, with `wsid`/`userid` query parameters.  `requestID`
is formatted into the URL template, so it may be a string or the integer
sentinel. -/
def PAPI.holdRequestCancel (papi : PAPI) (patronBarcode patronPassword : String)
    (requestID : PyVal) (workstationID userID : String) (k : Kwargs)
    (now : Nat) : SignedRequest :=
  papi.undifferentiatied "http" .PUT "public"
    ("patron/" ++ patronBarcode ++ "/holdrequests/" ++ requestID.fmt ++
      "/cancelled")
    { k with patronPassword := some patronPassword,
             params := some [("wsid", workstationID), ("userid", userID)] } now

/-- `holdRequestCancelAllForPatron` delegates to `holdRequestCancel` with
the integer sentinel `0` as the request id. -/
def PAPI.holdRequestCancelAllForPatron (papi : PAPI)
    (patronBarcode patronPassword workstationID userID : String) (k : Kwargs)
    (now : Nat) : SignedRequest :=
  papi.holdRequestCancel patronBarcode patronPassword (.int 0) workstationID
    userID k now

/-- `itemRenew`: PUT `patron/{barcode}/itemsout/{itemID}` with the renewal
JSON body. -/
def PAPI.itemRenew (papi : PAPI) (patronBarcode patronPassword itemID
    logonBranchID logonUserID logonWorkstationID ignoreOverrideErrors : String)
    (k : Kwargs) (now : Nat) : SignedRequest :=
  papi.undifferentiatied "http" .PUT "public"
    ("patron/" ++ patronBarcode ++ "/itemsout/" ++ itemID)
    { k with patronPassword := some patronPassword,
             data := some (.jobj
               [("Action", .jstr "renew"),
                ("LogonBranchID", .jstr logonBranchID),
                ("LogonUserID", .jstr logonUserID),
                ("LogonWorkstationID", .jstr logonWorkstationID),
                ("RenewData", .jobj
                  [("IgnoreOverrideErrors", .jstr ignoreOverrideErrors)])]) }
    now

/-- Python-level semantics of a positional call to `itemRenew`: the method
has seven positional parameters after `self`; any other count raises
`TypeError` before any request is built. -/
def PAPI.callItemRenew (papi : PAPI) (args : List PyVal) (k : Kwargs)
    (now : Nat) : Except String SignedRequest :=
  match args with
  | [a1, a2, a3, a4, a5, a6, a7] =>
      .ok (papi.itemRenew a1.fmt a2.fmt a3.fmt a4.fmt a5.fmt a6.fmt a7.fmt
        k now)
  | _ => .error ("TypeError: itemRenew() takes exactly 8 arguments (" ++
      toString (args.length + 1) ++ " given)")

/-- `itemRenewAllForPatron` as written in the source: it invokes
`self.itemRenew(self, patronBarcode, ..., 0, ...)`, passing the instance
itself as an extra positional argument, for a total of eight explicit
arguments against seven parameters. -/
def PAPI.itemRenewAllForPatron (papi : PAPI) (patronBarcode patronPassword
    logonBranchID logonUserID logonWorkstationID ignoreOverrideErrors : String)
    (k : Kwargs) (now : Nat) : Except String SignedRequest :=
  papi.callItemRenew
    [.inst, .str patronBarcode, .str patronPassword, .int 0,
     .str logonBranchID, .str logonUserID, .str logonWorkstationID,
     .str ignoreOverrideErrors] k now

/-- `notificationUpdate`: the one protected catalog entry whose protocol is
plain `http`. -/
def PAPI.notificationUpdate (papi : PAPI) (accessToken accessSecret
    notificationTypeID logonBranchID logonUserID logonWorkstationID
    notificationStatusID notificationDeliveryDate deliveryOptionID
    deliveryString patronID patronLanguageID : String) (k : Kwargs)
    (now : Nat) : SignedRequest :=
  papi.undifferentiatied "http" .PUT "protected"
    (accessToken ++ "/notification/" ++ notificationTypeID)
    { k with accessSecret := some accessSecret,
             data := some (.jobj
               [("LogonBranchID", .jstr logonBranchID),
                ("LogonUserID", .jstr logonUserID),
                ("LogonWorkstationID", .jstr logonWorkstationID),
                ("ReportingOrgID", jopt k.reportingOrgID),
                ("NotificationStatusID", .jstr notificationStatusID),
                ("NotificationDeliveryDate", .jstr notificationDeliveryDate),
                ("DeliveryOptionID", .jstr deliveryOptionID),
                ("DeliveryString", .jstr deliveryString),
                ("Details", jopt k.details),
                ("PatronID", .jstr patronID),
                ("PatronLanguageID", .jstr patronLanguageID),
                ("ItemRecordID", jopt k.itemRecordID)]) } now

/-- `patronAccountPay`: PUT over `https`, protected, token in the path. -/
def PAPI.patronAccountPay (papi : PAPI) (accessToken accessSecret
    patronBarcode chargeTxnID txnAmount paymentMethodID workstationID
    userID : String) (k : Kwargs) (now : Nat) : SignedRequest :=
  papi.undifferentiatied "https" .PUT "protected"
    (accessToken ++ "/patron/" ++ patronBarcode ++ "/account/" ++
      chargeTxnID ++ "/pay")
    { k with accessSecret := some accessSecret,
             data := some (.jobj
               [("TxnAmount", .jstr txnAmount),
                ("PaymentMethodID", .jstr paymentMethodID),
                ("FreeTextNote", jopt k.freeTextNote)]),
             params := some [("wsid", workstationID), ("userid", userID)] } now

/-- A concrete client for evaluating properties on concrete inputs. -/
def samplePAPI : PAPI := ⟨"ACCESS-KEY", "user1", "example.org"⟩

/-! ## The spec's wording of the query-suffix contract

These definitions restate §4.1 of the design document verbatim, to be
compared with `dictParse` as translated from the source. -/

/-- Spec wording: replace every space character with a literal plus in the
text; no other character is transformed. -/
def specPlusEncode (s : String) : String :=
  String.mk (s.data.map fun c => if c = ' ' then '+' else c)

/-- Spec wording: join the pieces with ampersands. -/
def specJoinAmp : List String → String
  | [] => ""
  | [x] => x
  | x :: xs => x ++ "&" ++ specJoinAmp xs

/-- Spec wording of the whole query suffix: encode both key and value,
join `key=value` pairs with `&`, prefix `?` when non-empty, and produce
the empty string for an empty mapping. -/
def specQuerySuffix (params : List (String × String)) : String :=
  if params = [] then ""
  else "?" ++ specJoinAmp (params.map fun kv =>
    specPlusEncode kv.1 ++ "=" ++ specPlusEncode kv.2)

/-- The `&k=v` runs accumulated by `_dictParse`, in closed form. -/
def ampParts : List (String × String) → String
  | [] => ""
  | kv :: t =>
      "&" ++ specPlusEncode kv.1 ++ "=" ++ specPlusEncode kv.2 ++ ampParts t

/-- The shape of an RFC 1123 / RFC 2822 HTTP date in GMT: a weekday
abbreviation, a (zero-padded) day, a month abbreviation, a year, the
`hh:mm:ss` clock, and the literal GMT zone. -/
def IsHttpDateGMT (s : String) : Prop :=
  ∃ wd d mo y hh mi ss, wd ∈ dayNames ∧ mo ∈ monthNames ∧
    s = wd ++ ", " ++ pad2 d ++ " " ++ mo ++ " " ++ pad4 y ++ " " ++
      pad2 hh ++ ":" ++ pad2 mi ++ ":" ++ pad2 ss ++ " GMT"

/-! ## Theorems -/

/-- `beBytes` always renders the requested number of bytes. -/
theorem beBytes_length (n v : Nat) : (beBytes n v).length = n := by
  simp [beBytes]

/-- A SHA-1 digest is always exactly 20 bytes. -/
theorem sha1_length (msg : List Nat) : (sha1 msg).length = 20 := by
  simp [sha1, beBytes_length]

/-- An HMAC-SHA1 digest is always exactly 20 bytes. -/
theorem hmacSha1_length (key msg : List Nat) :
    (hmacSha1 key msg).length = 20 := by
  simp [hmacSha1, sha1_length]

/-- FIPS 180-1 test vector: `SHA1("abc")`. -/
theorem sha1_test_abc :
    sha1 (strBytes "abc") =
      [0xa9, 0x99, 0x3e, 0x36, 0x47, 0x06, 0x81, 0x6a, 0xba, 0x3e,
       0x25, 0x71, 0x78, 0x50, 0xc2, 0x6c, 0x9c, 0xd0, 0xd8, 0x9d] := by
  decide

/-- RFC 2202 test case 1: HMAC-SHA1 with key `0x0b × 20`, data `"Hi There"`. -/
theorem hmacSha1_test_rfc2202 :
    hmacSha1 (List.replicate 20 0x0b) (strBytes "Hi There") =
      [0xb6, 0x17, 0x31, 0x86, 0x55, 0x05, 0x72, 0x64, 0xe2, 0x8b,
       0xc0, 0xb6, 0xfb, 0x37, 0x8c, 0x8e, 0xf1, 0x46, 0xbe, 0x00] := by
  decide

/-- The RFC 2616 reference date: epoch `784111777` renders as the familiar
RFC 1123 example string. -/
theorem formatdate_test :
    formatdate 784111777 = "Sun, 06 Nov 1994 08:49:37 GMT" := by decide

/-! ### `dictParse` agrees with the spec wording -/

/-- The character-by-character rebuild loop of `_dictParse` is the spec's
character map. -/
theorem foldl_plusChar (l a : List Char) :
    l.foldl (fun acc c => acc ++ [if c = ' ' then '+' else c]) a =
      a ++ l.map (fun c => if c = ' ' then '+' else c) := by
  induction l generalizing a with
  | nil => simp
  | cons c t ih => simp [ih]

/-- Unfolding the outer fold of `_dictParse` into `ampParts`. -/
theorem dictParse_fold_eq (params : List (String × String)) (a : String) :
    params.foldl (fun acc kv =>
        acc ++ "&" ++ specPlusEncode kv.1 ++ "=" ++ specPlusEncode kv.2) a =
      a ++ ampParts params := by
  induction params generalizing a with
  | nil => simp [ampParts]
  | cons kv t ih =>
      rw [List.foldl_cons, ih]
      simp [ampParts, String.append_assoc]

/-- Unfolding the spec join on a list of at least two pieces. -/
theorem specJoinAmp_cons2 (x y : String) (l : List String) :
    specJoinAmp (x :: y :: l) = x ++ "&" ++ specJoinAmp (y :: l) := rfl

/-- The accumulated runs are an ampersand followed by the spec's join. -/
theorem ampParts_cons (kv : String × String) (t : List (String × String)) :
    ampParts (kv :: t) =
      "&" ++ specJoinAmp ((kv :: t).map fun kv =>
        specPlusEncode kv.1 ++ "=" ++ specPlusEncode kv.2) := by
  induction t generalizing kv with
  | nil => simp [ampParts, specJoinAmp, String.append_assoc]
  | cons kv2 t2 ih =>
      rw [show ampParts (kv :: kv2 :: t2) = "&" ++ specPlusEncode kv.1 ++
            "=" ++ specPlusEncode kv.2 ++ ampParts (kv2 :: t2) from rfl,
          ih kv2]
      simp only [List.map_cons]
      rw [specJoinAmp_cons2]
      simp [String.append_assoc]

/-- A string starting with an ampersand is not empty. -/
theorem amp_ne_empty (X : String) : "&" ++ X ≠ "" := by
  intro h
  have h2 := congrArg String.data h
  rw [String.data_append, show ("&" : String).data = ['&'] from rfl,
      show ("" : String).data = [] from rfl] at h2
  exact List.cons_ne_nil _ _ h2

/-- Python slicing `[1:]` removes exactly the leading ampersand. -/
theorem pySliceFromOne_amp (X : String) : pySliceFromOne ("&" ++ X) = X := by
  show String.mk (("&" ++ X).data.drop 1) = X
  rw [String.data_append, show ("&" : String).data = ['&'] from rfl]
  rfl

/-- Prepending the empty string is the identity. -/
theorem str_empty_append (X : String) : "" ++ X = X := by
  have h : (("" ++ X).data : List Char) = X.data := by
    rw [String.data_append]; rfl
  exact congrArg String.mk h

/-- `_dictParse` computes exactly the query suffix the spec prescribes. -/
theorem dictParse_eq_spec (params : List (String × String)) :
    dictParse params = specQuerySuffix params := by
  have hbody : (fun (acc : String) (kv : String × String) =>
      acc ++ "&" ++ String.mk
        (kv.1.data.foldl (fun a c => a ++ [if c = ' ' then '+' else c]) [])
        ++ "=" ++ String.mk
        (kv.2.data.foldl (fun a c => a ++ [if c = ' ' then '+' else c]) [])) =
      fun acc kv =>
        acc ++ "&" ++ specPlusEncode kv.1 ++ "=" ++ specPlusEncode kv.2 := by
    funext acc kv
    simp only [foldl_plusChar, List.nil_append, specPlusEncode]
  simp only [dictParse]
  rw [hbody, dictParse_fold_eq, str_empty_append]
  cases params with
  | nil => rfl
  | cons kv t =>
      rw [ampParts_cons, if_neg (amp_ne_empty _), pySliceFromOne_amp]
      simp [specQuerySuffix]

/-! ### The base64 codec on a 20-byte digest -/

/-- Inputs of at most 57 bytes produce a single base64 line plus newline. -/
theorem pyBase64Fold_short (bs : List Nat) : ∀ acc : List Nat,
    acc.length + bs.length ≤ 57 →
    pyBase64Fold acc bs =
      if acc ++ bs = [] then [] else base64Chunk (acc ++ bs) ++ ['\n'] := by
  induction bs with
  | nil => intro acc h; simp [pyBase64Fold]
  | cons b rest ih =>
      intro acc h
      simp only [pyBase64Fold]
      by_cases hl : acc.length = 56
      · have hr : rest = [] := by
          simp only [List.length_cons] at h
          have : rest.length = 0 := by omega
          exact List.eq_nil_of_length_eq_zero this
        subst hr
        rw [if_pos hl]
        simp [pyBase64Fold]
      · rw [if_neg hl, ih (acc ++ [b]) (by simp at h ⊢; omega)]
        simp [List.append_assoc]

/-- The codec renders a 20-byte digest as its padded base64 text followed
by a single newline. -/
theorem pyB64_of_20 (d : List Nat) (h : d.length = 20) :
    pyBase64Encode d = base64Encode d ++ "\n" := by
  have hd : d ≠ [] := by intro h0; rw [h0] at h; simp at h
  have hmk : (base64Encode d ++ "\n").data = base64Chunk d ++ ['\n'] := by
    rw [String.data_append]; rfl
  unfold pyBase64Encode pyBase64Lines
  rw [pyBase64Fold_short d [] (by simp [h])]
  simp only [List.nil_append]
  rw [if_neg hd]
  exact (congrArg String.mk hmk).symm

/-- Dropping the last character of the codec output on a 20-byte digest
removes exactly the newline, leaving the padded standard base64 text. -/
theorem pyStrip20 (d : List Nat) (h : d.length = 20) :
    pySliceDropLast (pyBase64Encode d) = base64Encode d := by
  have hd : d ≠ [] := by intro h0; rw [h0] at h; simp at h
  unfold pySliceDropLast base64Encode
  unfold pyBase64Encode pyBase64Lines
  rw [pyBase64Fold_short d [] (by simp [h])]
  simp only [List.nil_append]
  rw [if_neg hd]
  rw [show (String.mk ((base64Chunk d ++ ['\n']).dropLast)) =
    String.mk (base64Chunk d) from congrArg String.mk (List.dropLast_concat ..)]

/-! ### RFC 1123 / 2822 HTTP dates -/

/-- `List.getD` yields either a list element or the fallback. -/
theorem getD_mem_or_default {α : Type} (l : List α) (i : Nat) (d : α) :
    l.getD i d ∈ l ∨ l.getD i d = d := by
  induction l generalizing i with
  | nil => right; simp [List.getD]
  | cons a t ih =>
      cases i with
      | zero => left; simp [List.getD]
      | succ j =>
          rcases ih j with h | h
          · left; rw [List.getD_cons_succ]; exact List.mem_cons_of_mem _ h
          · right; rw [List.getD_cons_succ]; exact h

/-- `List.getD` with a fallback drawn from the list yields a list element. -/
theorem getD_mem_of_default_mem {α : Type} (l : List α) (i : Nat) (d : α)
    (hd : d ∈ l) : l.getD i d ∈ l := by
  rcases getD_mem_or_default l i d with h | h
  · exact h
  · rw [h]; exact hd

/-- Every `formatdate` rendering has the RFC 1123 GMT shape. -/
theorem formatdate_isHttpDate (t : Nat) : IsHttpDateGMT (formatdate t) := by
  refine ⟨dayNames.getD ((t / 86400 + 3) % 7) "Mon",
    (civilFromDays (t / 86400)).2.2,
    monthNames.getD ((civilFromDays (t / 86400)).2.1 - 1) "Jan",
    (civilFromDays (t / 86400)).1,
    t % 86400 / 3600, t % 86400 % 3600 / 60, t % 86400 % 60,
    getD_mem_of_default_mem _ _ _ (by decide),
    getD_mem_of_default_mem _ _ _ (by decide), rfl⟩

/-! ## The claims -/

/-- C1: For every request built by the core routine, the signature is the
(encoded) HMAC-SHA1, keyed with the client's signing key, of the message
formed by concatenating, with no separators, the upper-case HTTP method,
the fully assembled request URL (canonical root URI, operation suffix,
custom query suffix), the HTTP Date header value, and the password string —
the per-call access secret if supplied, else the per-call patron password
if supplied, else the empty string. -/
theorem claim_C1 (papi : PAPI) (protocol : String) (m : HttpMethod)
    (protection suffixURI : String) (k : Kwargs) (now : Nat) :
    (papi.undifferentiatied protocol m protection suffixURI k now).signature =
      pySliceDropLast (pyBase64Encode (hmacSha1 (strBytes papi.accessKey)
        (strBytes (m.toStr ++
          (protocol ++ "://" ++ papi.hostname ++ "/PAPIService/REST/" ++
            protection ++ "/" ++ k.version.getD "v1" ++ "/" ++
            k.langID.getD "1033" ++ "/" ++ k.appID.getD "100" ++ "/" ++
            k.orgID.getD "1" ++ "/" ++ suffixURI ++
            dictParse (k.params.getD [])) ++
          formatdate now ++
          (match k.accessSecret, k.patronPassword with
           | some s, _ => s
           | none, some p => p
           | none, none => ""))))) ∧
    m.toStr.data.all Char.isUpper = true := by
  constructor
  · rcases k with ⟨v, lg, ap, og, pr, da, asec, pp, tk, r1, r2, r3, r4⟩
    cases asec with
    | some s => rfl
    | none => cases pp <;> rfl
  · cases m <;> decide

/-- C2: the query suffix replaces every space with a plus in each key and
each value and transforms no other character, joins `key=value` pairs with
ampersands, and carries a leading question mark exactly when the mapping is
non-empty (the empty mapping gives the empty string). -/
theorem claim_C2 (params : List (String × String)) :
    dictParse params = specQuerySuffix params ∧
    (∀ s : String, (specPlusEncode s).data =
      s.data.map fun c => if c = ' ' then '+' else c) ∧
    dictParse [] = "" :=
  ⟨dictParse_eq_spec params, fun _ => rfl, rfl⟩

/-- C3 as stated is false at this concrete request: the signature is not
the standard base64 text minus its final padding character, because the
character removed by the final-character strip is the codec's trailing
newline, not the padding. -/
theorem claim_C3_counterexample :
    (samplePAPI.undifferentiatied "http" .GET "public" "bib/353063" {}
        784111777).signature ≠
      String.mk ((base64Chunk (hmacSha1 (strBytes "ACCESS-KEY") (strBytes
        (samplePAPI.undifferentiatied "http" .GET "public" "bib/353063" {}
          784111777).sigMessage))).dropLast) := by
  decide

/-- C3 amended: the signature equals the standard base64 encoding of the
raw HMAC digest bytes with its padding intact; the single trailing
character stripped relative to the codec output is the newline that the
legacy base64 codec appends, not the padding character. -/
theorem claim_C3_amended (papi : PAPI) (protocol : String) (m : HttpMethod)
    (protection suffixURI : String) (k : Kwargs) (now : Nat) :
    (papi.undifferentiatied protocol m protection suffixURI k now).signature =
      base64Encode (hmacSha1 (strBytes papi.accessKey) (strBytes
        (papi.undifferentiatied protocol m protection suffixURI k
          now).sigMessage)) ∧
    pyBase64Encode (hmacSha1 (strBytes papi.accessKey) (strBytes
        (papi.undifferentiatied protocol m protection suffixURI k
          now).sigMessage)) =
      base64Encode (hmacSha1 (strBytes papi.accessKey) (strBytes
        (papi.undifferentiatied protocol m protection suffixURI k
          now).sigMessage)) ++ "\n" :=
  ⟨pyStrip20 _ (hmacSha1_length _ _), pyB64_of_20 _ (hmacSha1_length _ _)⟩

/-- C4: the optional token header is attached exactly when an access token
was supplied (non-empty) and the operation's protection level is public;
protected calls never carry it, and public calls with a token always do. -/
theorem claim_C4 (papi : PAPI) (protocol : String) (m : HttpMethod)
    (protection suffixURI : String) (k : Kwargs) (now : Nat) :
    ((papi.undifferentiatied protocol m protection suffixURI k
        now).tokenHeader ≠ none ↔
      (k.accessToken.getD "" ≠ "" ∧ protection = "public")) ∧
    ((papi.undifferentiatied protocol m "protected" suffixURI k
        now).tokenHeader = none) ∧
    (k.accessToken.getD "" ≠ "" → protection = "public" →
      (papi.undifferentiatied protocol m protection suffixURI k
          now).tokenHeader = some (k.accessToken.getD "")) := by
  refine ⟨?_, ?_, ?_⟩
  · show (if k.accessToken.getD "" ≠ "" ∧ protection = "public"
        then some (k.accessToken.getD "") else none) ≠ none ↔ _
    split
    · rename_i hcond; simp [hcond]
    · rename_i hcond; simp [hcond]
  · show (if k.accessToken.getD "" ≠ "" ∧ ("protected" : String) = "public"
        then some (k.accessToken.getD "") else none) = none
    exact if_neg (fun hcond => absurd hcond.2 (by decide))
  · intro h1 h2
    subst h2
    show (if k.accessToken.getD "" ≠ "" ∧ ("public" : String) = "public"
        then some (k.accessToken.getD "") else none) = _
    exact if_pos ⟨h1, rfl⟩

/-- Witness for C4 at a concrete protected call and a concrete public call
with the token `tok`. -/
theorem claim_C4_witness :
    (samplePAPI.undifferentiatied "https" .GET "protected" "collections"
      { accessToken := some "tok" } 0).tokenHeader = none ∧
    (samplePAPI.undifferentiatied "http" .GET "public" "collections"
      { accessToken := some "tok" } 0).tokenHeader = some "tok" :=
  ⟨(claim_C4 samplePAPI "https" .GET "protected" "collections"
      { accessToken := some "tok" } 0).2.1,
   (claim_C4 samplePAPI "http" .GET "public" "collections"
      { accessToken := some "tok" } 0).2.2 (by decide) rfl⟩

/-- C5 fails on `notificationUpdate`: the one protected catalog entry that
builds its URL over plain `http` (every other protected operation uses
`https`).  The descriptor records both the protected level and the http
scheme, and the URL it assembles starts `http://`. -/
theorem claim_C5 (papi : PAPI) (accessToken accessSecret notificationTypeID
    logonBranchID logonUserID logonWorkstationID notificationStatusID
    notificationDeliveryDate deliveryOptionID deliveryString patronID
    patronLanguageID : String) (k : Kwargs) (now : Nat) :
    (papi.notificationUpdate accessToken accessSecret notificationTypeID
        logonBranchID logonUserID logonWorkstationID notificationStatusID
        notificationDeliveryDate deliveryOptionID deliveryString patronID
        patronLanguageID k now).protection = "protected" ∧
    (papi.notificationUpdate accessToken accessSecret notificationTypeID
        logonBranchID logonUserID logonWorkstationID notificationStatusID
        notificationDeliveryDate deliveryOptionID deliveryString patronID
        patronLanguageID k now).protocol = "http" ∧
    (papi.notificationUpdate accessToken accessSecret notificationTypeID
        logonBranchID logonUserID logonWorkstationID notificationStatusID
        notificationDeliveryDate deliveryOptionID deliveryString patronID
        patronLanguageID k now).url =
      "http" ++ "://" ++ papi.hostname ++ "/PAPIService/REST/" ++
        "protected" ++ "/" ++ k.version.getD "v1" ++ "/" ++
        k.langID.getD "1033" ++ "/" ++ k.appID.getD "100" ++ "/" ++
        k.orgID.getD "1" ++ "/" ++
        (accessToken ++ "/notification/" ++ notificationTypeID) ++
        dictParse (k.params.getD []) :=
  ⟨rfl, rfl, rfl⟩

/-- For contrast with `notificationUpdate`: `patronAccountPay` is a
protected operation that does force the secure scheme. -/
theorem patronAccountPay_https (papi : PAPI) (accessToken accessSecret
    patronBarcode chargeTxnID txnAmount paymentMethodID workstationID
    userID : String) (k : Kwargs) (now : Nat) :
    (papi.patronAccountPay accessToken accessSecret patronBarcode
        chargeTxnID txnAmount paymentMethodID workstationID userID k
        now).protocol = "https" ∧
    (papi.patronAccountPay accessToken accessSecret patronBarcode
        chargeTxnID txnAmount paymentMethodID workstationID userID k
        now).protection = "protected" :=
  ⟨rfl, rfl⟩

/-- C6: cancelling all hold requests for a patron builds exactly the
descriptor of a direct cancel with the integer request id `0` and the same
barcode, password, workstation and user. -/
theorem claim_C6 (papi : PAPI)
    (patronBarcode patronPassword workstationID userID : String)
    (k : Kwargs) (now : Nat) :
    papi.holdRequestCancelAllForPatron patronBarcode patronPassword
        workstationID userID k now =
      papi.holdRequestCancel patronBarcode patronPassword (.int 0)
        workstationID userID k now := rfl

/-- C7 fails on the code: `itemRenewAllForPatron` passes the client
instance as an extra positional argument, so the delegated call carries
eight explicit arguments against `itemRenew`'s seven parameters and raises
`TypeError` instead of producing any descriptor. -/
theorem claim_C7 (papi : PAPI) (patronBarcode patronPassword logonBranchID
    logonUserID logonWorkstationID ignoreOverrideErrors : String)
    (k : Kwargs) (now : Nat) :
    papi.itemRenewAllForPatron patronBarcode patronPassword logonBranchID
        logonUserID logonWorkstationID ignoreOverrideErrors k now =
      Except.error
        "TypeError: itemRenew() takes exactly 8 arguments (9 given)" := by
  show Except.error ("TypeError: itemRenew() takes exactly 8 arguments (" ++
    toString ((8 : Nat) + 1) ++ " given)") = _
  rw [show ("TypeError: itemRenew() takes exactly 8 arguments (" ++
    toString ((8 : Nat) + 1) ++ " given)") =
    "TypeError: itemRenew() takes exactly 8 arguments (9 given)" by decide]

/-- C8 as stated is false: the constructor performs no validation, so a
client is constructed even when the signing key, key id and host are all
missing (empty). -/
theorem claim_C8_counterexample :
    callPAPIInit [.str "", .str "", .str ""] = .ok ⟨"", "", ""⟩ := rfl

/-- C8 amended: construction stores whatever three values it is given —
including empty ones — and never raises a configuration error; the only
construction-time failure is the language's arity check (`TypeError`) when
an argument is omitted, which does precede any signature computation. -/
theorem claim_C8_amended :
    (∀ a b c : String,
      callPAPIInit [.str a, .str b, .str c] = .ok ⟨a, b, c⟩) ∧
    (∀ args : List PyVal, args.length ≠ 3 →
      callPAPIInit args = .error
        ("TypeError: __init__() takes exactly 4 arguments (" ++
          toString (args.length + 1) ++ " given)")) := by
  constructor
  · intro a b c; rfl
  · intro args h
    rcases args with _ | ⟨a, _ | ⟨b, _ | ⟨c, _ | ⟨d, rest⟩⟩⟩⟩
    · rfl
    · rfl
    · rfl
    · exact absurd rfl h
    · rfl

/-- Witness for C8 amended: a concrete successful construction and a
concrete arity failure. -/
theorem claim_C8_amended_witness :
    callPAPIInit [.str "k", .str "id", .str "host.org"] =
      .ok ⟨"k", "id", "host.org"⟩ ∧
    callPAPIInit [] = .error
      "TypeError: __init__() takes exactly 4 arguments (1 given)" :=
  ⟨claim_C8_amended.1 "k" "id" "host.org",
   claim_C8_amended.2 [] (by decide)⟩

/-- C9 as stated is false at this concrete request: building it writes to
standard output (the routine prints the signature input message and the
signature), so the build is not free of output effects. -/
theorem claim_C9_counterexample :
    (samplePAPI.undifferentiatied "http" .GET "public" "sortoptions" {}
        784111777).stdout ≠ [] := by
  intro h
  exact absurd (congrArg List.length h) (by decide)

/-- C9 amended: beyond producing the descriptor for the transport, the
only other effect of building and signing a request is printing exactly
two lines to standard output — the signature input message and the
signature. -/
theorem claim_C9_amended (papi : PAPI) (protocol : String) (m : HttpMethod)
    (protection suffixURI : String) (k : Kwargs) (now : Nat) :
    (papi.undifferentiatied protocol m protection suffixURI k now).stdout =
      [(papi.undifferentiatied protocol m protection suffixURI k
          now).sigMessage,
       (papi.undifferentiatied protocol m protection suffixURI k
          now).signature] := rfl

/-- C10: the Date header is the very value used as the date component of
the signature input message, it is `formatdate` of the clock reading taken
by this call (hence recomputed per request, never cached), and it has the
RFC 1123 / 2822 GMT shape. -/
theorem claim_C10 (papi : PAPI) (protocol : String) (m : HttpMethod)
    (protection suffixURI : String) (k : Kwargs) (now : Nat) :
    (papi.undifferentiatied protocol m protection suffixURI k
        now).dateHeader = formatdate now ∧
    (papi.undifferentiatied protocol m protection suffixURI k
        now).sigMessage =
      m.toStr ++
        (papi.undifferentiatied protocol m protection suffixURI k now).url ++
        (papi.undifferentiatied protocol m protection suffixURI k
          now).dateHeader ++
        k.accessSecret.getD (k.patronPassword.getD "") ∧
    IsHttpDateGMT
      (papi.undifferentiatied protocol m protection suffixURI k
        now).dateHeader :=
  ⟨rfl, rfl, formatdate_isHttpDate now⟩

end Polaris
